import Mathlib

/-!
Verification of the manufacturer-documentation harvester repository
(React front-end pages plus the spec's pipeline model).

Each definition is a shallow embedding of a source function, named after
the component it comes from (`Dashboard`, `JobDetails`, `BulkUploadDetails`,
`ActiveJobs`, `NewJob`, `BulkUpload`).  Definitions whose doc comment starts
with `Modelled from the spec:` embed back-end behaviour whose code is not in
the repository snapshot (only its callers and tests are) and follow the
spec's words instead.
-/

/-! ## Status and progress rendering (Dashboard, JobDetails, BulkUploadDetails, ActiveJobs) -/

/-- `JobDetails.calculateProgress` (frontend/src/pages/JobDetails.js):
progress percentage of a crawl job from its status. -/
def JobDetails_calculateProgress (status : String) : Nat :=
  if status = "completed" then 100
  else if status = "uploading" then 80
  else if status = "classifying" then 60
  else if status = "crawling" then 40
  else if status = "pending" then 20
  else 0

/-- `BulkUploadDetails.calculateProgress` (src/unnamed/part_002):
progress percentage of a bulk-upload job from its status. -/
def BulkUploadDetails_calculateProgress (status : String) : Nat :=
  if status = "completed" then 100
  else if status = "uploading" then 80
  else if status = "downloading" then 60
  else if status = "processing" then 40
  else if status = "pending" then 20
  else 0

/-- `ActiveJobs.getProgress` (frontend/src/pages/Schedules.js, ActiveJobs part):
progress percentage from a job's type and status. -/
def ActiveJobs_getProgress (job_type status : String) : Nat :=
  if job_type = "crawl" then
    if status = "completed" then 100
    else if status = "uploading" then 80
    else if status = "classifying" then 60
    else if status = "crawling" then 40
    else 20
  else
    if status = "completed" then 100
    else if status = "uploading" then 70
    else if status = "downloading" then 40
    else if status = "processing" then 20
    else 10

/-- `Dashboard.getStatusColor` (frontend/src/pages/NewJob.js, Dashboard part):
colour class for a job status, defaulting to `text-muted-foreground`. -/
def Dashboard_getStatusColor (status : String) : String :=
  if status = "pending" then "text-blue-500"
  else if status = "crawling" then "text-amber-500"
  else if status = "classifying" then "text-purple-500"
  else if status = "uploading" then "text-cyan-500"
  else if status = "completed" then "text-emerald-500"
  else if status = "failed" then "text-red-500"
  else "text-muted-foreground"

/-- The status vocabulary of the spec's job state machine (spec section 4.5),
written out for comparison with the statuses the code distinguishes. -/
def specJobStatuses : List String :=
  ["pending", "crawling", "classifying", "uploading", "completed", "cancelled", "failed"]

/-- The pipeline statuses that `JobDetails.calculateProgress` distinguishes. -/
def crawlPipelineStatuses : List String :=
  ["pending", "crawling", "classifying", "uploading", "completed"]

/-- The pipeline statuses that `BulkUploadDetails.calculateProgress` distinguishes. -/
def bulkPipelineStatuses : List String :=
  ["pending", "processing", "downloading", "uploading", "completed"]

/-! ## Active jobs: cancellation (ActiveJobs, frontend/src/pages/Schedules.js) -/

/-- A row of the `/api/active-jobs` response, as the ActiveJobs page reads it. -/
structure ActiveJob where
  id : String
  job_type : String
deriving DecidableEq

/-- An HTTP request issued by the front end (method plus full URL). -/
structure HttpCall where
  method : String
  url : String
deriving DecidableEq

/-- `cancelCrawlMutation.mutationFn`: POST to the crawl-job cancel endpoint. -/
def cancelCrawlMutation (apiUrl jobId : String) : HttpCall :=
  { method := "POST", url := apiUrl ++ "/api/crawl-jobs/" ++ jobId ++ "/cancel" }

/-- `cancelBulkMutation.mutationFn`: POST to the bulk-upload-job cancel endpoint. -/
def cancelBulkMutation (apiUrl jobId : String) : HttpCall :=
  { method := "POST", url := apiUrl ++ "/api/bulk-upload-jobs/" ++ jobId ++ "/cancel" }

/-- `ActiveJobs.handleCancel`: dispatches the Stop Job button to the crawl or
bulk cancel mutation depending on `job.job_type`. -/
def ActiveJobs_handleCancel (apiUrl : String) (job : ActiveJob) : HttpCall :=
  if job.job_type = "crawl" then cancelCrawlMutation apiUrl job.id
  else cancelBulkMutation apiUrl job.id

/-- The `onSuccess` cache update shared by `cancelCrawlMutation` and
`cancelBulkMutation`: `old => old ? old.filter(j => j.id !== jobId) : old`. -/
def ActiveJobs_onCancelSuccess (jobId : String) :
    Option (List ActiveJob) → Option (List ActiveJob)
  | none => none
  | some old => some (old.filter (fun j => j.id != jobId))

/-! ## New crawl job form (NewJob, frontend/src/pages/NewJob.js) -/

/-- JSON values occurring in the crawl-job creation body. -/
inductive JsonVal where
  | str : String → JsonVal
  | arr : List JsonVal → JsonVal
  | bool : Bool → JsonVal

/-- The `formData` state of the NewJob page: exactly these five fields. -/
structure NewJobFormData where
  manufacturer_name : String
  domain : String
  product_lines : List String
  sharepoint_folder : String
  weekly_recrawl : Bool
deriving DecidableEq

/-- An HTTP request with a JSON object body, as axios serialises it. -/
structure JsonRequest where
  method : String
  url : String
  body : List (String × JsonVal)

/-- The JSON object axios sends for the NewJob `formData` state. -/
def NewJob_formDataJson (fd : NewJobFormData) : List (String × JsonVal) :=
  [("manufacturer_name", .str fd.manufacturer_name),
   ("domain", .str fd.domain),
   ("product_lines", .arr (fd.product_lines.map .str)),
   ("sharepoint_folder", .str fd.sharepoint_folder),
   ("weekly_recrawl", .bool fd.weekly_recrawl)]

/-- `NewJob.handleSubmit`: `axios.post(API_URL + "/api/crawl-jobs", formData)`. -/
def NewJob_handleSubmit (apiUrl : String) (fd : NewJobFormData) : JsonRequest :=
  { method := "POST", url := apiUrl ++ "/api/crawl-jobs", body := NewJob_formDataJson fd }

/-! ## Counter field names read by the UI (Dashboard, JobDetails, BulkUploadDetails) -/

/-- Look a numeric field up in a JSON object (JS property access `job[key]`). -/
def getField (job : List (String × Nat)) (key : String) : Option Nat :=
  (job.find? (fun kv => kv.1 == key)).map (fun kv => kv.2)

/-- Dashboard jobs-table row, "PDFs Found" cell: reads `job.total_pdfs_found`. -/
def Dashboard_row_pdfsFound (job : List (String × Nat)) : Option Nat :=
  getField job "total_pdfs_found"

/-- Dashboard jobs-table row, "Technical" cell: reads `job.total_pdfs_classified`. -/
def Dashboard_row_technical (job : List (String × Nat)) : Option Nat :=
  getField job "total_pdfs_classified"

/-- Dashboard jobs-table row, "Uploaded" cell: reads `job.total_pdfs_uploaded`. -/
def Dashboard_row_uploaded (job : List (String × Nat)) : Option Nat :=
  getField job "total_pdfs_uploaded"

/-- JobDetails "PDFs Found" stat card: reads `job.total_pdfs_found`. -/
def JobDetails_stat_found (job : List (String × Nat)) : Option Nat :=
  getField job "total_pdfs_found"

/-- JobDetails "Classified" stat card: reads `job.total_pdfs_classified`. -/
def JobDetails_stat_classified (job : List (String × Nat)) : Option Nat :=
  getField job "total_pdfs_classified"

/-- JobDetails "Uploaded" stat card: reads `job.total_pdfs_uploaded`. -/
def JobDetails_stat_uploaded (job : List (String × Nat)) : Option Nat :=
  getField job "total_pdfs_uploaded"

/-- BulkUploadDetails "Total Items" stat card: reads `job.total_items`. -/
def BulkUploadDetails_stat_items (job : List (String × Nat)) : Option Nat :=
  getField job "total_items"

/-- BulkUploadDetails "Classified" stat card: reads `job.total_classified`. -/
def BulkUploadDetails_stat_classified (job : List (String × Nat)) : Option Nat :=
  getField job "total_classified"

/-- BulkUploadDetails "Uploaded" stat card: reads `job.total_uploaded`. -/
def BulkUploadDetails_stat_uploaded (job : List (String × Nat)) : Option Nat :=
  getField job "total_uploaded"

/-! ## Bulk upload form (BulkUpload, frontend/src/pages/JobDetails.js, BulkUpload part) -/

/-- JS `String.prototype.endsWith`: the receiver ends with the given suffix. -/
def endsWithJs (s suffix : String) : Bool :=
  suffix.data.isSuffixOf s.data

/-- A browser `File`-like value: its name and its textual content. -/
structure JsFile where
  name : String
  content : String
deriving DecidableEq

/-- The error toast text of `BulkUpload.handleFileChange`. -/
def excelFileError : String := "Please select an Excel file (.xlsx or .xls)"

/-- `BulkUpload.handleFileChange` on a selected file: keeps the previous file
state and raises an error toast unless the name ends in `.xlsx` or `.xls`;
otherwise stores the selected file.  Returns (new file state, error toast). -/
def BulkUpload_handleFileChange (current : Option JsFile) (selected : JsFile) :
    Option JsFile × Option String :=
  if !(endsWithJs selected.name ".xlsx") && !(endsWithJs selected.name ".xls") then
    (current, some excelFileError)
  else
    (some selected, none)

/-- `BulkUpload.downloadTemplate`: the sample file it generates (download name
`bulk_upload_template.csv` with the fixed CSV content). -/
def BulkUpload_downloadTemplate : JsFile :=
  { name := "bulk_upload_template.csv"
  , content := "Part Number,Technical Product Data\n8570-001420,https://www.example.com/datasheet1.pdf\n926-120000,https://www.example.com/datasheet2.pdf\n356-000000,https://www.example.com/manual.pdf" }

/-! ## Bulk upload submission URL (BulkUpload.handleSubmit) -/

/-- Hexadecimal digit characters as `encodeURIComponent` emits them (uppercase). -/
def hexDigitChar (n : Nat) : Char :=
  if n = 0 then '0' else if n = 1 then '1' else if n = 2 then '2'
  else if n = 3 then '3' else if n = 4 then '4' else if n = 5 then '5'
  else if n = 6 then '6' else if n = 7 then '7' else if n = 8 then '8'
  else if n = 9 then '9' else if n = 10 then 'A' else if n = 11 then 'B'
  else if n = 12 then 'C' else if n = 13 then 'D' else if n = 14 then 'E'
  else 'F'

/-- The characters JS `encodeURIComponent` leaves unescaped:
letters, digits, and `- _ . ! ~ * ' ( )`. -/
def uriUnreserved (c : Char) : Bool :=
  ('A' ≤ c && c ≤ 'Z') || ('a' ≤ c && c ≤ 'z') || ('0' ≤ c && c ≤ '9')
  || c == '-' || c == '_' || c == '.' || c == '!' || c == '~' || c == '*'
  || c == Char.ofNat 39 || c == '(' || c == ')'

/-- UTF-8 bytes of a character, as natural numbers below 256. -/
def utf8Bytes (c : Char) : List Nat :=
  let n := c.toNat
  if n < 128 then [n]
  else if n < 2048 then [192 + n / 64, 128 + n % 64]
  else if n < 65536 then [224 + n / 4096, 128 + (n / 64) % 64, 128 + n % 64]
  else [240 + n / 262144, 128 + (n / 4096) % 64, 128 + (n / 64) % 64, 128 + n % 64]

/-- Percent-escape of one byte: `%XY` with uppercase hex digits. -/
def percentByte (b : Nat) : List Char :=
  ['%', hexDigitChar (b / 16), hexDigitChar (b % 16)]

/-- `encodeURIComponent` on one character. -/
def encodeURIComponentChar (c : Char) : List Char :=
  if uriUnreserved c then [c] else (utf8Bytes c).flatMap percentByte

/-- JS `encodeURIComponent`: escapes every character outside the unreserved
set as percent-encoded UTF-8 bytes. -/
def encodeURIComponent (s : String) : String :=
  ⟨s.data.flatMap encodeURIComponentChar⟩

/-- An HTTP request with multipart form-data body: method, full URL,
content type, and the appended form entries (name, value). -/
structure MultipartRequest where
  method : String
  url : String
  contentType : String
  formEntries : List (String × JsFile)

/-- The `formData` state of the BulkUpload page: exactly these two fields. -/
structure BulkUploadFormData where
  manufacturer_name : String
  sharepoint_folder : String
deriving DecidableEq

/-- `BulkUpload.handleSubmit`: multipart POST of the selected file to
`/api/bulk-upload` with `manufacturer_name` and `sharepoint_folder` as
URL-encoded query parameters. -/
def BulkUpload_handleSubmit (apiUrl : String) (fd : BulkUploadFormData)
    (file : JsFile) : MultipartRequest :=
  { method := "POST"
  , url := apiUrl ++ "/api/bulk-upload?manufacturer_name="
      ++ encodeURIComponent fd.manufacturer_name
      ++ "&sharepoint_folder=" ++ encodeURIComponent fd.sharepoint_folder
  , contentType := "multipart/form-data"
  , formEntries := [("file", file)] }

/-- Split a character list at the first occurrence of a separator:
returns the part before it and the part after it. -/
def splitAtFirst (sep : Char) : List Char → List Char × List Char
  | [] => ([], [])
  | c :: cs =>
    if c = sep then ([], cs)
    else
      let p := splitAtFirst sep cs
      (c :: p.1, p.2)

/-- The path-and-origin part of a URL: everything before the first `?`. -/
def urlBeforeQuery (u : String) : String :=
  ⟨(splitAtFirst '?' u.data).1⟩

/-- The query string of a URL: everything after the first `?`. -/
def urlQueryString (u : String) : String :=
  ⟨(splitAtFirst '?' u.data).2⟩

/-! ## Pipeline model for the classifier/uploader back end (spec sections 3, 4.3-4.5) -/

/-- Modelled from the spec: the classifier's document-type vocabulary
(spec section 4.3); the classifier back end (backend/services/pdf_classifier.py)
is not in the repository snapshot. -/
inductive DocumentType where
  | productDataSheet
  | specificationSheet
  | submittalSheet
  | technicalDataSheet
  | installationManual
  | operationMaintenance
  | engineeringDiagram
  | marketing
  | unknown
deriving DecidableEq

/-- Modelled from the spec: the upload allow-list (spec section 4.3) — the
document types that surface to the Uploader; the filter itself lives in the
missing back end (backend/services/crawler_service.py, pdf_classifier.py). -/
def UPLOAD_ALLOW_LIST : List DocumentType :=
  [.productDataSheet, .specificationSheet, .submittalSheet, .technicalDataSheet]

/-- One row of the discovery record, with the fields of the spec's
DiscoveredPdf that the pipeline mutates (`document_type` is `none` until
the classifier has run). -/
structure DiscoveredPdf where
  source_url : String
  document_type : Option DocumentType
  is_technical : Bool
  sharepoint_uploaded : Bool
deriving DecidableEq

/-- The per-job pipeline state: the job's discovery record. -/
structure JobPipelineState where
  pdfs : List DiscoveredPdf
deriving DecidableEq

/-- The `pdfs_found` counter: rows in the discovery record. -/
def pdfs_found (s : JobPipelineState) : Nat :=
  s.pdfs.length

/-- The `pdfs_classified` counter: rows whose `document_type` has been decided. -/
def pdfs_classified (s : JobPipelineState) : Nat :=
  s.pdfs.countP (fun p => p.document_type.isSome)

/-- The `pdfs_uploaded` counter: rows marked `sharepoint_uploaded`. -/
def pdfs_uploaded (s : JobPipelineState) : Nat :=
  s.pdfs.countP (fun p => p.sharepoint_uploaded)

/-- Modelled from the spec: one step of the worker pipeline
(spec sections 4.2-4.4) — the crawler appends a newly discovered PDF, the
classifier decides a pending row's type and sets `is_technical` to membership
in the allow-list, and the uploader marks an allow-listed technical row as
uploaded.  The worker back end (backend/services/crawler_service.py and
friends) is not in the repository snapshot. -/
inductive WorkerStep : JobPipelineState → JobPipelineState → Prop
  | discover (s : JobPipelineState) (url : String) :
      WorkerStep s ⟨s.pdfs ++ [⟨url, none, false, false⟩]⟩
  | classify (pre post : List DiscoveredPdf) (url : String) (t : DocumentType) :
      WorkerStep ⟨pre ++ ⟨url, none, false, false⟩ :: post⟩
        ⟨pre ++ ⟨url, some t, decide (t ∈ UPLOAD_ALLOW_LIST), false⟩ :: post⟩
  | upload (pre post : List DiscoveredPdf) (url : String) (t : DocumentType)
      (h : t ∈ UPLOAD_ALLOW_LIST) :
      WorkerStep ⟨pre ++ ⟨url, some t, true, false⟩ :: post⟩
        ⟨pre ++ ⟨url, some t, true, true⟩ :: post⟩

/-- The empty pipeline state a job starts from. -/
def JobPipelineState.init : JobPipelineState := ⟨[]⟩

/-- States of the pipeline reachable from the initial state by worker steps. -/
inductive ReachableState : JobPipelineState → Prop
  | init : ReachableState JobPipelineState.init
  | step {s t : JobPipelineState} :
      ReachableState s → WorkerStep s t → ReachableState t

/-! ## Theorems -/

/-- C8: `JobDetails.calculateProgress` is strictly increasing along the spec's
pipeline order — pending 20 < crawling 40 < classifying 60 < uploading 80 <
completed 100 — and returns 0 for every status outside that order
(in particular for `failed` and `cancelled`). -/
theorem jobDetails_progress_monotone_pipeline :
    JobDetails_calculateProgress "pending" = 20 ∧
    JobDetails_calculateProgress "crawling" = 40 ∧
    JobDetails_calculateProgress "classifying" = 60 ∧
    JobDetails_calculateProgress "uploading" = 80 ∧
    JobDetails_calculateProgress "completed" = 100 ∧
    JobDetails_calculateProgress "pending" < JobDetails_calculateProgress "crawling" ∧
    JobDetails_calculateProgress "crawling" < JobDetails_calculateProgress "classifying" ∧
    JobDetails_calculateProgress "classifying" < JobDetails_calculateProgress "uploading" ∧
    JobDetails_calculateProgress "uploading" < JobDetails_calculateProgress "completed" ∧
    ∀ status, status ∉ crawlPipelineStatuses → JobDetails_calculateProgress status = 0 := by
  refine ⟨by decide, by decide, by decide, by decide, by decide,
    by decide, by decide, by decide, by decide, ?_⟩
  intro status h
  simp only [crawlPipelineStatuses, List.mem_cons, List.not_mem_nil, or_false,
    not_or] at h
  obtain ⟨h1, h2, h3, h4, h5⟩ := h
  simp [JobDetails_calculateProgress, h1, h2, h3, h4, h5]

/-- C8 witness: the progress of the terminal off-path status `cancelled`,
which is outside the pipeline order, is 0. -/
theorem jobDetails_progress_monotone_pipeline_witness :
    "cancelled" ∉ crawlPipelineStatuses ∧ JobDetails_calculateProgress "cancelled" = 0 :=
  ⟨by decide,
   jobDetails_progress_monotone_pipeline.2.2.2.2.2.2.2.2.2 "cancelled" (by decide)⟩

/-- C2 counterexample: the bulk-upload pipeline runs through the statuses
`processing` and `downloading`, which are outside the spec state machine's
vocabulary — `BulkUploadDetails.calculateProgress` and `ActiveJobs.getProgress`
give them dedicated progress values, and give the spec's mid-pipeline crawl
statuses `crawling`/`classifying` no value at all for bulk jobs. -/
theorem bulk_status_outside_spec_vocabulary :
    BulkUploadDetails_calculateProgress "downloading" = 60 ∧
    BulkUploadDetails_calculateProgress "processing" = 40 ∧
    ActiveJobs_getProgress "bulk_upload" "downloading" = 40 ∧
    ActiveJobs_getProgress "bulk_upload" "processing" = 20 ∧
    "downloading" ∉ specJobStatuses ∧
    "processing" ∉ specJobStatuses ∧
    BulkUploadDetails_calculateProgress "crawling" = 0 ∧
    BulkUploadDetails_calculateProgress "classifying" = 0 := by
  refine ⟨by decide, by decide, by decide, by decide, by decide, by decide,
    by decide, by decide⟩

/-- C2 amended: crawl jobs use the spec state machine's vocabulary — every
status the crawl-job UIs distinguish is one of pending, crawling, classifying,
uploading, completed, cancelled, failed — but bulk-upload jobs run through a
different pipeline vocabulary (pending, processing, downloading, uploading,
completed), and `processing`/`downloading` are not spec states. -/
theorem job_status_vocabulary_amended :
    (∀ s, JobDetails_calculateProgress s ≠ 0 → s ∈ specJobStatuses) ∧
    (∀ s, Dashboard_getStatusColor s ≠ "text-muted-foreground" → s ∈ specJobStatuses) ∧
    (∀ s, BulkUploadDetails_calculateProgress s ≠ 0 → s ∈ bulkPipelineStatuses) ∧
    "processing" ∉ specJobStatuses ∧ "downloading" ∉ specJobStatuses := by
  refine ⟨?_, ?_, ?_, by decide, by decide⟩
  · intro s h
    unfold JobDetails_calculateProgress at h
    split_ifs at h with h1 h2 h3 h4 h5
    · subst h1; decide
    · subst h2; decide
    · subst h3; decide
    · subst h4; decide
    · subst h5; decide
    · exact absurd rfl h
  · intro s h
    unfold Dashboard_getStatusColor at h
    split_ifs at h with h1 h2 h3 h4 h5 h6
    · subst h1; decide
    · subst h2; decide
    · subst h3; decide
    · subst h4; decide
    · subst h5; decide
    · subst h6; decide
    · exact absurd rfl h
  · intro s h
    unfold BulkUploadDetails_calculateProgress at h
    split_ifs at h with h1 h2 h3 h4 h5
    · subst h1; decide
    · subst h2; decide
    · subst h3; decide
    · subst h4; decide
    · subst h5; decide
    · exact absurd rfl h

/-- C2 amended witness: `crawling` has nonzero crawl progress and is a spec
state. -/
theorem job_status_vocabulary_amended_witness :
    JobDetails_calculateProgress "crawling" ≠ 0 ∧ "crawling" ∈ specJobStatuses :=
  ⟨by decide, job_status_vocabulary_amended.1 "crawling" (by decide)⟩

/-- A job object whose counters are stored under the spec's field names
(`pdfs_found`, `pdfs_classified`, `pdfs_uploaded`, `pdfs_failed`). -/
def specNamedCountersJob : List (String × Nat) :=
  [("pdfs_found", 10), ("pdfs_classified", 8), ("pdfs_uploaded", 6), ("pdfs_failed", 1)]

/-- C3 counterexample: on a job object that exposes its counters under the
spec's names `pdfs_found`/`pdfs_classified`/`pdfs_uploaded`/`pdfs_failed`,
every counter cell of the dashboard job row and of the job-detail stat cards
reads nothing — the UI reads the `total_pdfs_*` names instead. -/
theorem ui_counters_not_under_spec_names :
    getField specNamedCountersJob "pdfs_found" = some 10 ∧
    getField specNamedCountersJob "pdfs_uploaded" = some 6 ∧
    Dashboard_row_pdfsFound specNamedCountersJob = none ∧
    Dashboard_row_technical specNamedCountersJob = none ∧
    Dashboard_row_uploaded specNamedCountersJob = none ∧
    JobDetails_stat_found specNamedCountersJob = none ∧
    JobDetails_stat_classified specNamedCountersJob = none ∧
    JobDetails_stat_uploaded specNamedCountersJob = none := by
  refine ⟨by decide, by decide, by decide, by decide, by decide, by decide,
    by decide, by decide⟩

/-- C3 amended: the job list and job detail responses expose the crawl-job
progress counters to the UI under the names `total_pdfs_found`,
`total_pdfs_classified` and `total_pdfs_uploaded` (bulk-upload details use
`total_items`, `total_classified`, `total_uploaded`); no `pdfs_failed`
counter is read by the UI. -/
theorem ui_counters_total_names (a b c : Nat) (rest : List (String × Nat)) :
    Dashboard_row_pdfsFound
      (("total_pdfs_found", a) :: ("total_pdfs_classified", b)
        :: ("total_pdfs_uploaded", c) :: rest) = some a ∧
    Dashboard_row_technical
      (("total_pdfs_found", a) :: ("total_pdfs_classified", b)
        :: ("total_pdfs_uploaded", c) :: rest) = some b ∧
    Dashboard_row_uploaded
      (("total_pdfs_found", a) :: ("total_pdfs_classified", b)
        :: ("total_pdfs_uploaded", c) :: rest) = some c ∧
    JobDetails_stat_found
      (("total_pdfs_found", a) :: ("total_pdfs_classified", b)
        :: ("total_pdfs_uploaded", c) :: rest) = some a ∧
    JobDetails_stat_classified
      (("total_pdfs_found", a) :: ("total_pdfs_classified", b)
        :: ("total_pdfs_uploaded", c) :: rest) = some b ∧
    JobDetails_stat_uploaded
      (("total_pdfs_found", a) :: ("total_pdfs_classified", b)
        :: ("total_pdfs_uploaded", c) :: rest) = some c ∧
    BulkUploadDetails_stat_items
      (("total_items", a) :: ("total_classified", b)
        :: ("total_uploaded", c) :: rest) = some a ∧
    BulkUploadDetails_stat_classified
      (("total_items", a) :: ("total_classified", b)
        :: ("total_uploaded", c) :: rest) = some b ∧
    BulkUploadDetails_stat_uploaded
      (("total_items", a) :: ("total_classified", b)
        :: ("total_uploaded", c) :: rest) = some c :=
  ⟨rfl, rfl, rfl, rfl, rfl, rfl, rfl, rfl, rfl⟩

/-- C5: pressing Stop Job on an active job sends POST
`/api/crawl-jobs/{id}/cancel` when the job's `job_type` is `crawl`, and POST
`/api/bulk-upload-jobs/{id}/cancel` for every other `job_type`, with that
job's id in the path. -/
theorem stop_job_cancel_endpoints (apiUrl : String) (job : ActiveJob) :
    (job.job_type = "crawl" →
      ActiveJobs_handleCancel apiUrl job =
        ⟨"POST", apiUrl ++ "/api/crawl-jobs/" ++ job.id ++ "/cancel"⟩) ∧
    (job.job_type ≠ "crawl" →
      ActiveJobs_handleCancel apiUrl job =
        ⟨"POST", apiUrl ++ "/api/bulk-upload-jobs/" ++ job.id ++ "/cancel"⟩) := by
  constructor
  · intro h
    simp [ActiveJobs_handleCancel, h, cancelCrawlMutation]
  · intro h
    simp [ActiveJobs_handleCancel, h, cancelBulkMutation]

/-- C5 witness: a concrete crawl job and a concrete bulk-upload job are
dispatched to their respective cancel endpoints. -/
theorem stop_job_cancel_endpoints_witness :
    ActiveJobs_handleCancel "http://api" ⟨"j1", "crawl"⟩ =
      ⟨"POST", "http://api" ++ "/api/crawl-jobs/" ++ "j1" ++ "/cancel"⟩ ∧
    ActiveJobs_handleCancel "http://api" ⟨"j2", "bulk_upload"⟩ =
      ⟨"POST", "http://api" ++ "/api/bulk-upload-jobs/" ++ "j2" ++ "/cancel"⟩ :=
  ⟨(stop_job_cancel_endpoints "http://api" ⟨"j1", "crawl"⟩).1 rfl,
   (stop_job_cancel_endpoints "http://api" ⟨"j2", "bulk_upload"⟩).2 (by decide)⟩

/-- C6: creating a crawl job POSTs to `/api/crawl-jobs` a JSON body containing
exactly the fields `manufacturer_name`, `domain`, `product_lines` (a list of
strings), `sharepoint_folder` and `weekly_recrawl` (a boolean), taken from the
form state. -/
theorem new_job_submit_body (apiUrl : String) (fd : NewJobFormData) :
    (NewJob_handleSubmit apiUrl fd).method = "POST" ∧
    (NewJob_handleSubmit apiUrl fd).url = apiUrl ++ "/api/crawl-jobs" ∧
    (NewJob_handleSubmit apiUrl fd).body.map Prod.fst =
      ["manufacturer_name", "domain", "product_lines", "sharepoint_folder",
       "weekly_recrawl"] ∧
    (NewJob_handleSubmit apiUrl fd).body =
      [("manufacturer_name", JsonVal.str fd.manufacturer_name),
       ("domain", JsonVal.str fd.domain),
       ("product_lines", JsonVal.arr (fd.product_lines.map JsonVal.str)),
       ("sharepoint_folder", JsonVal.str fd.sharepoint_folder),
       ("weekly_recrawl", JsonVal.bool fd.weekly_recrawl)] :=
  ⟨rfl, rfl, rfl, rfl⟩

/-- C9: on cancellation success the cached active-jobs list becomes exactly
its previous contents with every entry of the cancelled id removed — the
survivors are preserved unchanged and in order (a sublist of the old cache),
an entry survives iff its id differs from the cancelled one, and an undefined
cache is left undefined. -/
theorem cancel_success_cache_update (jobId : String) :
    ActiveJobs_onCancelSuccess jobId none = none ∧
    ∀ old : List ActiveJob, ∃ updated : List ActiveJob,
      ActiveJobs_onCancelSuccess jobId (some old) = some updated ∧
      List.Sublist updated old ∧
      ∀ j : ActiveJob, j ∈ updated ↔ (j ∈ old ∧ j.id ≠ jobId) := by
  refine ⟨rfl, fun old =>
    ⟨old.filter (fun j => j.id != jobId), rfl, List.filter_sublist old, ?_⟩⟩
  intro j
  simp [List.mem_filter, bne_iff_ne]

/-- C10: the bulk-upload file selector accepts a file iff its name ends in
`.xlsx` or `.xls` (raising an error toast otherwise), while the Download
Sample Template action produces the file `bulk_upload_template.csv` — which
the selector therefore always rejects. -/
theorem template_rejected_by_file_selector :
    (∀ (current : Option JsFile) (f : JsFile),
      endsWithJs f.name ".xlsx" = false → endsWithJs f.name ".xls" = false →
        BulkUpload_handleFileChange current f = (current, some excelFileError)) ∧
    (∀ (current : Option JsFile) (f : JsFile),
      (endsWithJs f.name ".xlsx" = true ∨ endsWithJs f.name ".xls" = true) →
        BulkUpload_handleFileChange current f = (some f, none)) ∧
    BulkUpload_downloadTemplate.name = "bulk_upload_template.csv" ∧
    ∀ current : Option JsFile,
      BulkUpload_handleFileChange current BulkUpload_downloadTemplate =
        (current, some excelFileError) := by
  refine ⟨?_, ?_, rfl, ?_⟩
  · intro cur f h1 h2
    simp [BulkUpload_handleFileChange, h1, h2]
  · intro cur f h
    rcases h with h | h <;> simp [BulkUpload_handleFileChange, h]
  · intro cur
    have h1 : endsWithJs BulkUpload_downloadTemplate.name ".xlsx" = false := by decide
    have h2 : endsWithJs BulkUpload_downloadTemplate.name ".xls" = false := by decide
    simp [BulkUpload_handleFileChange, h1, h2]

/-- C10 witness: the generated template file is concretely rejected by the
selector while a `.xlsx` file is accepted. -/
theorem template_rejected_by_file_selector_witness :
    BulkUpload_handleFileChange none BulkUpload_downloadTemplate =
      (none, some excelFileError) ∧
    BulkUpload_handleFileChange none ⟨"parts.xlsx", ""⟩ =
      (some ⟨"parts.xlsx", ""⟩, none) :=
  ⟨template_rejected_by_file_selector.2.2.2 none,
   template_rejected_by_file_selector.2.1 none ⟨"parts.xlsx", ""⟩ (Or.inl (by decide))⟩

/-- Splitting at the first occurrence of a separator that is absent from the
prefix recovers the prefix and the suffix. -/
theorem splitAtFirst_append (sep : Char) (a b : List Char) (h : sep ∉ a) :
    splitAtFirst sep (a ++ sep :: b) = (a, b) := by
  induction a with
  | nil => simp [splitAtFirst]
  | cons c cs ih =>
    have hc : c ≠ sep := fun hc => h (hc ▸ List.mem_cons_self c cs)
    have hcs : sep ∉ cs := fun hm => h (List.mem_cons_of_mem c hm)
    simp [splitAtFirst, hc, ih hcs]

/-- C7: submitting the Bulk Upload form issues a multipart POST whose URL is
`/api/bulk-upload` with `manufacturer_name` and `sharepoint_folder` passed as
URL-encoded query parameters, and whose multipart body carries only the
selected file — the two text fields are not in the body. -/
theorem bulk_upload_submit_request (apiUrl : String) (fd : BulkUploadFormData)
    (file : JsFile) (h : '?' ∉ apiUrl.data) :
    (BulkUpload_handleSubmit apiUrl fd file).method = "POST" ∧
    (BulkUpload_handleSubmit apiUrl fd file).contentType = "multipart/form-data" ∧
    (BulkUpload_handleSubmit apiUrl fd file).formEntries = [("file", file)] ∧
    "manufacturer_name" ∉ (BulkUpload_handleSubmit apiUrl fd file).formEntries.map Prod.fst ∧
    "sharepoint_folder" ∉ (BulkUpload_handleSubmit apiUrl fd file).formEntries.map Prod.fst ∧
    urlBeforeQuery (BulkUpload_handleSubmit apiUrl fd file).url
      = apiUrl ++ "/api/bulk-upload" ∧
    urlQueryString (BulkUpload_handleSubmit apiUrl fd file).url
      = "manufacturer_name=" ++ encodeURIComponent fd.manufacturer_name
        ++ "&sharepoint_folder=" ++ encodeURIComponent fd.sharepoint_folder := by
  have hlit : ("/api/bulk-upload?manufacturer_name=" : String).data
      = "/api/bulk-upload".data ++ '?' :: ("manufacturer_name=" : String).data := rfl
  have hd : (BulkUpload_handleSubmit apiUrl fd file).url.data
      = (apiUrl.data ++ "/api/bulk-upload".data) ++ '?' ::
          ("manufacturer_name=".data ++ (encodeURIComponent fd.manufacturer_name).data
            ++ "&sharepoint_folder=".data
            ++ (encodeURIComponent fd.sharepoint_folder).data) := by
    show (apiUrl ++ "/api/bulk-upload?manufacturer_name="
        ++ encodeURIComponent fd.manufacturer_name
        ++ "&sharepoint_folder=" ++ encodeURIComponent fd.sharepoint_folder).data = _
    simp only [String.data_append, hlit, List.append_assoc, List.cons_append,
      List.nil_append]
  have hp : '?' ∉ apiUrl.data ++ ("/api/bulk-upload" : String).data := by
    intro hm
    rcases List.mem_append.mp hm with hm | hm
    · exact h hm
    · exact absurd hm (by decide)
  refine ⟨rfl, rfl, rfl, by simp [BulkUpload_handleSubmit], by simp [BulkUpload_handleSubmit], ?_, ?_⟩
  · unfold urlBeforeQuery
    rw [hd, splitAtFirst_append _ _ _ hp]
    apply congrArg String.mk
    rfl
  · unfold urlQueryString
    rw [hd, splitAtFirst_append _ _ _ hp]
    apply congrArg String.mk
    rfl

/-- C7 witness: a concrete bulk-upload submission, with the space and the
slashes of the form values percent-encoded into the query string. -/
theorem bulk_upload_submit_request_witness :
    '?' ∉ ("http://api" : String).data ∧
    encodeURIComponent "Acme Controls" = "Acme%20Controls" ∧
    encodeURIComponent "/Docs/Acme" = "%2FDocs%2FAcme" ∧
    urlQueryString (BulkUpload_handleSubmit "http://api"
        ⟨"Acme Controls", "/Docs/Acme"⟩ ⟨"parts.xlsx", ""⟩).url
      = "manufacturer_name=" ++ encodeURIComponent "Acme Controls"
        ++ "&sharepoint_folder=" ++ encodeURIComponent "/Docs/Acme" :=
  ⟨by decide, by decide, by decide,
   (bulk_upload_submit_request "http://api" ⟨"Acme Controls", "/Docs/Acme"⟩
      ⟨"parts.xlsx", ""⟩ (by decide)).2.2.2.2.2.2⟩

/-- In every reachable pipeline state, a row marked `sharepoint_uploaded`
carries a decided document type that is in the upload allow-list. -/
theorem reachable_uploaded_allowlisted {s : JobPipelineState}
    (hs : ReachableState s) :
    ∀ p ∈ s.pdfs, p.sharepoint_uploaded = true →
      ∃ t, p.document_type = some t ∧ t ∈ UPLOAD_ALLOW_LIST := by
  induction hs with
  | init =>
    intro p hp
    simp [JobPipelineState.init] at hp
  | step _ hstep ih =>
    cases hstep with
    | discover s url =>
      intro p hp hup
      rcases List.mem_append.mp hp with hp | hp
      · exact ih p hp hup
      · simp only [List.mem_singleton] at hp
        subst hp
        simp at hup
    | classify pre post url t =>
      intro p hp hup
      rcases List.mem_append.mp hp with hp | hp
      · exact ih p (List.mem_append.mpr (Or.inl hp)) hup
      · rcases List.mem_cons.mp hp with hp | hp
        · subst hp
          simp at hup
        · exact ih p (List.mem_append.mpr (Or.inr (List.mem_cons.mpr (Or.inr hp)))) hup
    | upload pre post url t ht =>
      intro p hp hup
      rcases List.mem_append.mp hp with hp | hp
      · exact ih p (List.mem_append.mpr (Or.inl hp)) hup
      · rcases List.mem_cons.mp hp with hp | hp
        · subst hp
          exact ⟨t, rfl, ht⟩
        · exact ih p (List.mem_append.mpr (Or.inr (List.mem_cons.mpr (Or.inr hp)))) hup

/-- No worker step drops a row from the discovery record: every source URL
present before a step is still present after it. -/
theorem workerStep_retains {s s2 : JobPipelineState} (h : WorkerStep s s2) :
    ∀ p ∈ s.pdfs, p.source_url ∈ s2.pdfs.map (fun q => q.source_url) := by
  cases h with
  | discover s url =>
    intro p hp
    exact List.mem_map.mpr ⟨p, List.mem_append.mpr (Or.inl hp), rfl⟩
  | classify pre post url t =>
    intro p hp
    rcases List.mem_append.mp hp with hp | hp
    · exact List.mem_map.mpr ⟨p, List.mem_append.mpr (Or.inl hp), rfl⟩
    · rcases List.mem_cons.mp hp with hp | hp
      · subst hp
        exact List.mem_map.mpr ⟨⟨url, some t, decide (t ∈ UPLOAD_ALLOW_LIST), false⟩,
          List.mem_append.mpr (Or.inr (List.mem_cons_self _ _)), rfl⟩
      · exact List.mem_map.mpr ⟨p,
          List.mem_append.mpr (Or.inr (List.mem_cons.mpr (Or.inr hp))), rfl⟩
  | upload pre post url t ht =>
    intro p hp
    rcases List.mem_append.mp hp with hp | hp
    · exact List.mem_map.mpr ⟨p, List.mem_append.mpr (Or.inl hp), rfl⟩
    · rcases List.mem_cons.mp hp with hp | hp
      · subst hp
        exact List.mem_map.mpr ⟨⟨url, some t, true, true⟩,
          List.mem_append.mpr (Or.inr (List.mem_cons_self _ _)), rfl⟩
      · exact List.mem_map.mpr ⟨p,
          List.mem_append.mpr (Or.inr (List.mem_cons.mpr (Or.inr hp))), rfl⟩

/-- C1: in every reachable pipeline state a PDF marked uploaded has its
`document_type` in the upload allow-list (Product Data Sheet, Specification
Sheet, Submittal Sheet, Technical Data Sheet); a PDF classified `Installation
Manual` is never uploaded; and no worker step ever drops a discovered PDF
from the discovery record. -/
theorem upload_allowlist_filter {s : JobPipelineState} (hs : ReachableState s) :
    ∀ p ∈ s.pdfs,
      (p.sharepoint_uploaded = true →
        ∃ t, p.document_type = some t ∧ t ∈ UPLOAD_ALLOW_LIST) ∧
      (p.document_type = some DocumentType.installationManual →
        p.sharepoint_uploaded = false) ∧
      (∀ s2, WorkerStep s s2 → p.source_url ∈ s2.pdfs.map (fun q => q.source_url)) := by
  intro p hp
  refine ⟨reachable_uploaded_allowlisted hs p hp, ?_,
    fun s2 h2 => workerStep_retains h2 p hp⟩
  intro hty
  cases hb : p.sharepoint_uploaded with
  | false => rfl
  | true =>
    obtain ⟨t, ht, hmem⟩ := reachable_uploaded_allowlisted hs p hp hb
    rw [hty] at ht
    injection ht with ht
    subst ht
    exact absurd hmem (by decide)

/-- A concrete reachable end state: one discovered PDF, classified
`Product Data Sheet` and uploaded. -/
def samplePipelineRun : JobPipelineState :=
  ⟨[⟨"https://acme.example.com/ds.pdf", some DocumentType.productDataSheet, true, true⟩]⟩

/-- The sample run is reachable by discover, classify, upload. -/
theorem samplePipelineRun_reachable : ReachableState samplePipelineRun :=
  ReachableState.step
    (ReachableState.step
      (ReachableState.step ReachableState.init
        (WorkerStep.discover JobPipelineState.init "https://acme.example.com/ds.pdf"))
      (WorkerStep.classify [] [] "https://acme.example.com/ds.pdf"
        DocumentType.productDataSheet))
    (WorkerStep.upload [] [] "https://acme.example.com/ds.pdf"
      DocumentType.productDataSheet (by decide))

/-- C1 witness: in the sample run the uploaded PDF's type is concretely in the
allow-list. -/
theorem upload_allowlist_filter_witness :
    (⟨"https://acme.example.com/ds.pdf", some DocumentType.productDataSheet, true, true⟩
        : DiscoveredPdf) ∈ samplePipelineRun.pdfs ∧
    ∃ t, (some DocumentType.productDataSheet = some t) ∧ t ∈ UPLOAD_ALLOW_LIST :=
  ⟨by decide,
   ((upload_allowlist_filter samplePipelineRun_reachable
      ⟨"https://acme.example.com/ds.pdf", some DocumentType.productDataSheet, true, true⟩
      (by decide)).1 rfl)⟩

/-- C4: in every reachable pipeline state the counter chain
`pdfs_uploaded ≤ pdfs_classified ≤ pdfs_found` holds. -/
theorem counters_chain {s : JobPipelineState} (hs : ReachableState s) :
    pdfs_uploaded s ≤ pdfs_classified s ∧ pdfs_classified s ≤ pdfs_found s := by
  constructor
  · apply List.countP_mono_left
    intro p hp hup
    obtain ⟨t, ht, _⟩ := reachable_uploaded_allowlisted hs p hp (by simpa using hup)
    simp [ht]
  · exact List.countP_le_length _

/-- C4 witness: the counter chain evaluated on the concrete sample run. -/
theorem counters_chain_witness :
    pdfs_found samplePipelineRun = 1 ∧
    pdfs_uploaded samplePipelineRun ≤ pdfs_classified samplePipelineRun ∧
    pdfs_classified samplePipelineRun ≤ pdfs_found samplePipelineRun :=
  ⟨rfl, counters_chain samplePipelineRun_reachable⟩
